import Mathlib

/-!
A shallow embedding of the text-analysis pipeline of `detector.js` (the
`TextAnalyzer` class and its helpers), together with theorems settling the
specification claims about it.

Conventions of the embedding:
- JavaScript strings are Lean `String`s; `s.length` in JS counts UTF-16 code
  units, modelled by `jsLength` (1 for code points below 0x10000, 2 for the
  rest).
- `String.prototype.toLowerCase` is modelled by `jsToLower`, covering the
  ASCII and Latin-1 case mappings (all that French text exercises).
- `String.prototype.trim` removes the JS whitespace class on both ends
  (`jsTrim` / `jsIsWs`).
- `text.split(re)` for a one-or-more character-class regex (`/\s+/`,
  `/[.!?]+/`) is modelled by `jsFieldSplit`: the fields are the substrings
  between successive maximal delimiter runs.  A string beginning (resp.
  ending) with a delimiter contributes a leading (resp. trailing) empty
  field, and `"".split` yields `[""]`.
- JS numbers: every quantity the scorer compares is a quotient of small
  integers against a constant threshold; the comparisons are modelled by the
  equivalent exact integer comparisons, which agree with the IEEE-double
  computation for all operand sizes below 2^49.  Division by zero
  (`x / 0 = Infinity` for `x > 0`, `0 / 0 = NaN`) is modelled explicitly in
  each guard (`condAvgLen`, `condSimple`, `condDiversity`).
- The `markers` list, which `analyzeText` folds into its `details` HTML
  string, is exposed as a field of the result so that properties about
  markers can be stated; the `details` string itself is outside every claim
  except for the fixed advisory message of the empty-input branch.
-/

/-- The JS `\s` whitespace class (also the set removed by
`String.prototype.trim`), by code point. -/
def jsIsWs (c : Char) : Bool :=
  c.toNat = 9 || c.toNat = 10 || c.toNat = 11 || c.toNat = 12 || c.toNat = 13 ||
  c.toNat = 32 || c.toNat = 160 || c.toNat = 5760 ||
  (8192 ≤ c.toNat && c.toNat ≤ 8202) || c.toNat = 8232 || c.toNat = 8233 ||
  c.toNat = 8239 || c.toNat = 8287 || c.toNat = 12288 || c.toNat = 65279

/-- `String.prototype.toLowerCase`, restricted to the ASCII (`A`-`Z`) and
Latin-1 (`À`-`Þ` except `×`) uppercase letters: both map by adding 32.  This
covers French text; other Unicode case mappings are outside the lexicon and
every claim. -/
def jsCharLower (c : Char) : Char :=
  if 65 ≤ c.toNat ∧ c.toNat ≤ 90 then Char.ofNat (c.toNat + 32)
  else if 192 ≤ c.toNat ∧ c.toNat ≤ 222 ∧ c.toNat ≠ 215 then Char.ofNat (c.toNat + 32)
  else c

/-- `text.toLowerCase()`, character by character. -/
def jsToLower (s : String) : String := String.mk (s.data.map jsCharLower)

/-- `text.trim()`: strip the JS whitespace class from both ends. -/
def jsTrim (s : String) : String :=
  String.mk (((s.data.dropWhile jsIsWs).reverse.dropWhile jsIsWs).reverse)

/-- JS `string.length`: the number of UTF-16 code units. -/
def jsLength (s : String) : Nat :=
  (s.data.map (fun c => if c.toNat < 65536 then 1 else 2)).sum

/-- One step of the right fold computing the maximal runs of
non-delimiter characters: the state is the run adjacent to the current
position plus the runs already completed to the right. -/
def runStep (p : Char → Bool) (c : Char) (st : List Char × List (List Char)) :
    List Char × List (List Char) :=
  if p c then ([], if st.1.isEmpty then st.2 else st.1 :: st.2)
  else (c :: st.1, st.2)

/-- State of the run-collecting fold over a character list. -/
def runState (p : Char → Bool) (l : List Char) : List Char × List (List Char) :=
  l.foldr (runStep p) ([], [])

/-- The maximal runs of characters NOT satisfying `p`, in order. -/
def tokenRuns (p : Char → Bool) (l : List Char) : List (List Char) :=
  if (runState p l).1.isEmpty then (runState p l).2
  else (runState p l).1 :: (runState p l).2

/-- Whether the first character of `s` satisfies `p` (`false` for `""`). -/
def headSat (p : Char → Bool) (s : String) : Bool :=
  match s.data with
  | [] => false
  | c :: _ => p c

/-- Whether the last character of `s` satisfies `p` (`false` for `""`). -/
def lastSat (p : Char → Bool) (s : String) : Bool :=
  match s.data.getLast? with
  | none => false
  | some c => p c

/-- `s.split(re)` for a one-or-more character-class regex over the delimiter
set `p` (JS `/[D]+/`): the fields between successive maximal delimiter runs.
A leading (resp. trailing) delimiter run contributes an empty first (resp.
last) field; `"".split` yields `[""]`. -/
def jsFieldSplit (p : Char → Bool) (s : String) : List String :=
  if s.data = [] then [""]
  else
    ((if headSat p s then [([] : List Char)] else []) ++ tokenRuns p s.data ++
      (if lastSat p s then [([] : List Char)] else [])).map String.mk

/-- `text.split(/\s+/)` (src lines 70, 90, 164, 187). -/
def jsSplitWs (s : String) : List String := jsFieldSplit jsIsWs s

/-- The sentence delimiter class of `/[.!?]+/`. -/
def isSentenceDelim (c : Char) : Bool := c == '.' || c == '!' || c == '?'

/-- `text.split(/[.!?]+/).filter(s => s.trim().length > 0)`
(src lines 89 and 162).  Note the segments are only FILTERED by
trimmed-nonemptiness, never themselves trimmed. -/
def jsSentences (text : String) : List String :=
  (jsFieldSplit isSentenceDelim text).filter (fun s => 0 < jsLength (jsTrim s))

/-- `s.split(/\s+/).filter(w => w.length > 0)`: the non-empty
whitespace-delimited tokens (src line 187). -/
def wsTokens (s : String) : List String :=
  (jsSplitWs s).filter (fun w => 0 < jsLength w)

/-- `s.includes(sub)`: substring containment, case-sensitive. -/
def strIncludes (s sub : String) : Bool :=
  (List.range (s.data.length + 1)).any
    (fun i => sub.data == (s.data.drop i).take sub.data.length)

/-- The fixed French connector lexicon `COMMON_TRANSITIONS`
(src lines 2-7), in declaration order. -/
def COMMON_TRANSITIONS : List String :=
  ["premièrement", "deuxièmement", "ensuite", "puis", "enfin",
   "cependant", "néanmoins", "toutefois", "mais", "or",
   "donc", "ainsi", "par conséquent", "en effet", "car",
   "de plus", "en outre", "également", "aussi", "par ailleurs"]

/-- `vocabularyStats` record (src lines 25-30, 191-196).  `avgWordLength` is
a JS double; its value is an exact rational here.  A `commonWords` count is
`some n` for a numeric count and `none` for the string-valued count a
prototype-colliding key ends up with (see `bumpFreq`). -/
structure VocabularyStats where
  uniqueWords : Nat
  totalWords : Nat
  avgWordLength : ℚ
  commonWords : List (String × Option Nat)
deriving DecidableEq

/-- The `types` counters of `sentenceStats` (src lines 33-37). -/
structure SentenceTypeCounts where
  simple : Nat
  compound : Nat
  complex : Nat
deriving DecidableEq

/-- `sentenceStats` record (src lines 31-39, 163-171). -/
structure SentenceStats where
  lengths : List Nat
  types : SentenceTypeCounts
  transitions : List String
deriving DecidableEq

/-- The `this.metrics` object (src lines 23-41). -/
structure Metrics where
  vocabularyStats : VocabularyStats
  sentenceStats : SentenceStats
deriving DecidableEq

/-- A marker pushed by `performDetailedAnalysis`: the JS object
`\x7b type, message, severity \x7d` with string-valued fields. -/
structure Marker where
  type : String
  message : String
  severity : String
deriving DecidableEq

/-- Result of `performDetailedAnalysis` (src line 158): the collected
markers and the accumulated score.  The score is an `Int` (a JS number);
non-negativity is proved, not assumed. -/
structure DetAnalysis where
  markers : List Marker
  score : Int
deriving DecidableEq

/-- The value returned by `analyzeText` (src lines 46-52, 60-64), with the
marker list exposed alongside the `details` string derived from it. -/
structure AnalyzeResult where
  aiScore : Int
  details : String
  metrics : Metrics
  markers : List Marker
deriving DecidableEq

/-- `getEmptyMetrics` (src lines 23-41). -/
def getEmptyMetrics : Metrics :=
  { vocabularyStats := { uniqueWords := 0, totalWords := 0, avgWordLength := 0, commonWords := [] }
    sentenceStats := { lengths := [], types := { simple := 0, compound := 0, complex := 0 },
                       transitions := [] } }

/-- `findTransitions` (src lines 214-218): the lexicon entries occurring
case-insensitively as substrings of the document, in lexicon order. -/
def findTransitions (text : String) : List String :=
  COMMON_TRANSITIONS.filter
    (fun transition => strIncludes (jsToLower text) (jsToLower transition))

/-- The sentence classification chain of `analyzeSentenceStructure`
(src lines 173-181), factored per sentence: complex if comma and `qui`/`que`,
else compound if comma or `et`/`ou`, else simple. -/
inductive SentenceKind where
  | simple
  | compound
  | complex
deriving DecidableEq

/-- The if/else-if/else classification applied to one sentence
(src lines 174-180); all tests are case-sensitive substring containment. -/
def classifySentence (sentence : String) : SentenceKind :=
  if strIncludes sentence "," &&
      (strIncludes sentence "qui" || strIncludes sentence "que") then .complex
  else if strIncludes sentence "," || strIncludes sentence "et" ||
      strIncludes sentence "ou" then .compound
  else .simple

/-- One step of the `sentences.forEach` counter updates (src lines 173-181). -/
def typeStep (t : SentenceTypeCounts) (sentence : String) : SentenceTypeCounts :=
  match classifySentence sentence with
  | .complex => { t with complex := t.complex + 1 }
  | .compound => { t with compound := t.compound + 1 }
  | .simple => { t with simple := t.simple + 1 }

/-- `analyzeSentenceStructure` (src lines 161-184).  `lengths` counts ALL
fields of the whitespace split of each (untrimmed) sentence, exactly as
`s.split(/\s+/).length` does. -/
def analyzeSentenceStructure (text : String) : SentenceStats :=
  { lengths := (jsSentences text).map (fun s => (jsSplitWs s).length)
    types := (jsSentences text).foldl typeStep { simple := 0, compound := 0, complex := 0 }
    transitions := findTransitions text }

/-- One lookup-and-assign step `frequency[word] = (frequency[word] || 0) + 1`
on the JS object literal (src lines 104-109, 200-206), modelled as an
association list INCLUDING the `Object.prototype` chain: the table starts
as an empty object literal, so a key that is not yet an own property is
still looked up on the prototype.  Both code paths lowercase their keys, and
only two `Object.prototype` property names are all-lowercase, so exactly two
tokens can collide:
- `"__proto__"`: the inherited accessor returns `Object.prototype` (truthy)
  on read, and its setter swallows the string assignment, so no own property
  is ever created — the table is unchanged;
- `"constructor"`: the inherited constructor function is truthy, so
  `(frequency[word] || 0) + 1` concatenates into a string; the own property
  is created with a permanently non-numeric value, modelled as `none`
  (each later `string + 1` is again a non-empty string, kept as `none`).
Every other key behaves as a plain counter, `some count`.  JS object string
keys iterate in insertion order, modelled by the list order.  (The JS
reordering of integer-like keys is not modelled; no claim depends on the
iteration order.) -/
def bumpFreq (l : List (String × Option Nat)) (w : String) : List (String × Option Nat) :=
  if w == "__proto__" then l
  else if l.any (fun p => p.1 == w) then
    l.map (fun p => if p.1 == w then (p.1, p.2.map (· + 1)) else p)
  else if w == "constructor" then l ++ [(w, none)]
  else l ++ [(w, some 1)]

/-- The word-frequency table over tokens of JS length > 3
(src lines 104-109; the tokens there are already lowercased). -/
def wordFrequency (ws : List String) : List (String × Option Nat) :=
  ws.foldl (fun acc w => if 3 < jsLength w then bumpFreq acc w else acc) []

/-- The JS sort comparator `(a, b) => b[1] - a[1]` (src line 209) as the
ordering predicate of a stable sort: `a` may stay before `b` when the
comparator value is not positive.  When either count is a string (a
prototype-poisoned entry, `none`), the subtraction is `NaN`, which JS
SortCompare treats as `+0` — a tie. -/
def commonCompare (a b : String × Option Nat) : Bool :=
  match a.2, b.2 with
  | some m, some n => n ≤ m
  | _, _ => true

/-- `getMostCommonWords` (src lines 199-212): frequency over lowercased
tokens of length > 3 (prototype-aware, see `bumpFreq`), sorted by
descending numeric count (stable, as in modern JS engines; string-valued
counts tie with everything), truncated to `limit`. -/
def getMostCommonWords (ws : List String) (limit : Nat) : List (String × Option Nat) :=
  ((ws.foldl (fun acc w => if 3 < jsLength w then bumpFreq acc (jsToLower w) else acc)
      []).mergeSort commonCompare).take limit

/-- `analyzeVocabularyStats` (src lines 186-197). -/
def analyzeVocabularyStats (text : String) : VocabularyStats :=
  { uniqueWords := ((wsTokens text).map jsToLower).dedup.length
    totalWords := (wsTokens text).length
    avgWordLength :=
      if (wsTokens text).length = 0 then 0
      else (((wsTokens text).map jsLength).sum : ℚ) / ((wsTokens text).length : ℚ)
    commonWords := getMostCommonWords (wsTokens text) 20 }

/-- The `words` array of `performDetailedAnalysis` (src line 90):
`text.toLowerCase().split(/\s+/)`, NOT filtered, so a leading or trailing
whitespace contributes an empty token. -/
def detWords (text : String) : List String := jsSplitWs (jsToLower text)

/-- The `repeatedWords` array (src lines 111-113): the frequency entries
passing `count > 3`.  A `none` (string-valued, prototype-poisoned) count
compares as `NaN > 3 = false`, so only numeric counts pass; in particular a
word equal to `"constructor"` never produces a repeated-words entry no
matter how often it occurs. -/
def repeatedWordsOf (text : String) : List (String × Nat) :=
  (wordFrequency (detWords text)).filterMap
    (fun p => match p.2 with
      | some n => if 3 < n then some (p.1, n) else none
      | none => none)

/-- `avgSentenceLength > 25` (src lines 93-94): models
`words.length / sentences.length > 25` in JS doubles.  With zero sentences
the quotient is `Infinity` when `words.length > 0` (so the guard is TRUE)
and `NaN` when it is 0 (guard false); otherwise the comparison is the exact
`25 * sentenceCount < wordCount`, which agrees with the double computation
for all counts below 2^49. -/
def condAvgLen (wordCount sentenceCount : Nat) : Bool :=
  if sentenceCount = 0 then decide (0 < wordCount)
  else decide (25 * sentenceCount < wordCount)

/-- `transitionCount < sentences.length / 4` (src line 125), exactly. -/
def condTrans (transitionCount sentenceCount : Nat) : Bool :=
  decide (4 * transitionCount < sentenceCount)

/-- `simple / total > 0.7` (src line 137): `NaN > 0.7` is false when
`total = 0`; otherwise the exact `7 * total < 10 * simple` (the double
computation agrees below 2^49). -/
def condSimple (t : SentenceTypeCounts) : Bool :=
  if t.simple + t.compound + t.complex = 0 then false
  else decide (7 * (t.simple + t.compound + t.complex) < 10 * t.simple)

/-- `diversityRatio < 0.4` (src line 149): `NaN < 0.4` is false when
`totalWords = 0`; otherwise the exact `5 * uniqueWords < 2 * totalWords`. -/
def condDiversity (uniqueWords totalWords : Nat) : Bool :=
  if totalWords = 0 then false
  else decide (5 * uniqueWords < 2 * totalWords)

/-- `Math.round(diversityRatio * 100)` (src line 152) for a ratio `u / t`
with `t > 0`: `floor(100 u / t + 1 / 2) = (200 u + t) / (2 t)` in `Nat`
division. -/
def jsRoundPct (u t : Nat) : Nat :=
  if t = 0 then 0 else (200 * u + t) / (2 * t)

/-- The long-sentences marker (src lines 95-99). -/
def avgLenMarker : Marker :=
  { type := "structure"
    message := "Les phrases sont très longues (moyenne > 25 mots). Considérez les raccourcir pour améliorer la lisibilité."
    severity := "high" }

/-- The repeated-words marker (src lines 116-120): lists up to 5 repeated
words with their counts. -/
def repeatedMarker (repeatedWords : List (String × Nat)) : Marker :=
  { type := "vocabulary"
    message := "Mots fréquemment répétés : " ++
      String.intercalate ", "
        ((repeatedWords.take 5).map
          (fun p => "\"" ++ p.1 ++ "\" (" ++ toString p.2 ++ " fois)"))
    severity := "medium" }

/-- The missing-transitions marker (src lines 126-130). -/
def transMarker : Marker :=
  { type := "coherence"
    message := "Manque de mots de transition. Ajoutez des connecteurs logiques pour améliorer la fluidité."
    severity := "medium" }

/-- The too-simple-structure marker (src lines 138-142). -/
def simpleMarker : Marker :=
  { type := "structure"
    message := "Structure des phrases trop simple. Variez les constructions pour un style plus engageant."
    severity := "medium" }

/-- The low-diversity marker (src lines 150-154), with the rounded
percentage in the message. -/
def diversityMarker (u t : Nat) : Marker :=
  { type := "vocabulary"
    message := "Vocabulaire peu varié (" ++ toString (jsRoundPct u t) ++
      "% de mots uniques). Enrichissez votre lexique."
    severity := "high" }

/-- `performDetailedAnalysis` (src lines 86-159).  The five checks run in
source order, each appending its marker and adding its delta to the mutable
`markers` / `score`, modelled by sequential state passing.  It reads the
transition list, type counters and vocabulary counts from `this.metrics`
(set by `analyzeAIContent` just before the call), which is passed in
explicitly. -/
def performDetailedAnalysis (text : String) (metrics : Metrics) : DetAnalysis :=
  let sentences := jsSentences text
  let words := detWords text
  let st1 : DetAnalysis :=
    if condAvgLen words.length sentences.length then
      { markers := [avgLenMarker], score := 0 + 15 }
    else { markers := [], score := 0 }
  let st2 : DetAnalysis :=
    if 0 < (repeatedWordsOf text).length then
      { markers := st1.markers ++ [repeatedMarker (repeatedWordsOf text)], score := st1.score }
    else st1
  let st3 : DetAnalysis :=
    if condTrans metrics.sentenceStats.transitions.length sentences.length then
      { markers := st2.markers ++ [transMarker], score := st2.score + 10 }
    else st2
  let st4 : DetAnalysis :=
    if condSimple metrics.sentenceStats.types then
      { markers := st3.markers ++ [simpleMarker], score := st3.score + 10 }
    else st3
  let st5 : DetAnalysis :=
    if condDiversity metrics.vocabularyStats.uniqueWords metrics.vocabularyStats.totalWords then
      { markers := st4.markers ++
          [diversityMarker metrics.vocabularyStats.uniqueWords metrics.vocabularyStats.totalWords]
        score := st4.score + 20 }
    else st4
  st5

/-- The `this.metrics` value after `analyzeAIContent` has filled it from
the vocabulary and sentence analyzers (src lines 72-76). -/
def computedMetrics (text : String) : Metrics :=
  { vocabularyStats := analyzeVocabularyStats text
    sentenceStats := analyzeSentenceStructure text }

/-- `analyzeAIContent` (src lines 67-84): fills `this.metrics` from the
vocabulary and sentence analyzers, then accumulates the detailed analysis.
Returns the JS pair `[score, aiMarkers]` together with the metrics the call
wrote into `this.metrics`. -/
def analyzeAIContent (text : String) : DetAnalysis × Metrics :=
  (performDetailedAnalysis text (computedMetrics text), computedMetrics text)

/-- The fixed advisory message of the empty-input branch (src line 49). -/
def emptyInputMessage : String := "Veuillez entrer du texte à analyser."

/-- `formatDetailsBase` (src lines 220-266) renders the metrics and markers
as an HTML report.  Its numeric formatting (`toFixed`, percentage rounding)
is abbreviated to exact decimal renderings here; no claim constrains this
string — the claims only require that the empty-input branch of
`analyzeText` returns `emptyInputMessage` instead of this report. -/
def formatDetailsBase (metrics : Metrics) (aiMarkers : List Marker) : String :=
  "<h4>Analyse détaillée du contenu :</h4>" ++
  "<li>Nombre total de mots : " ++ toString metrics.vocabularyStats.totalWords ++ "</li>" ++
  "<li>Nombre de mots uniques : " ++ toString metrics.vocabularyStats.uniqueWords ++ "</li>" ++
  "<li>Nombre de phrases : " ++ toString metrics.sentenceStats.lengths.length ++ "</li>" ++
  "<li>Connecteurs utilisés : " ++
    String.intercalate ", " metrics.sentenceStats.transitions ++ "</li>" ++
  String.join (aiMarkers.map (fun m => "<li>" ++ m.message ++ "</li>"))

/-- `analyzeText` (src lines 43-65), the entry point: empty or
whitespace-only input short-circuits to the zero result with the fixed
advisory message; otherwise the pipeline runs. -/
def analyzeText (text : String) : AnalyzeResult :=
  if jsTrim text = "" then
    { aiScore := 0, details := emptyInputMessage, metrics := getEmptyMetrics, markers := [] }
  else
    let r := analyzeAIContent text
    { aiScore := r.1.score, details := formatDetailsBase r.2 r.1.markers
      metrics := r.2, markers := r.1.markers }

/-- Modelled from the spec (for the C6 refinement comparison only): the
per-sentence word counts as the spec describes them — each sentence
stripped of leading/trailing whitespace, counting its non-empty
whitespace-delimited tokens. -/
def specSentenceLengths (text : String) : List Nat :=
  (jsSentences text).map (fun s => (wsTokens (jsTrim s)).length)

/-- Shorthand: does marker `m` have the given kind and severity. -/
def isMarkerKind (kind severity : String) (m : Marker) : Bool :=
  m.type == kind && m.severity == severity

/-- Modelled from the spec (for the C2 refinement comparison only): the
claimed score — the sum of the deltas of exactly those section 4.5
conditions that hold, reading the average sentence length as
`totalWordCount / sentenceCount` (section 4.3, over the non-empty tokens of
the document), with the structure and coherence checks skipped entirely
when `sentenceCount` is 0 (section 4.5), and the diversity ratio taken as 0
when `totalWordCount` is 0 (section 4.2).  The repeated-word condition of
section 4.5 carries delta 0 and so does not appear in the sum. -/
def specScore (text : String) : Int :=
  (if (jsSentences text).length ≠ 0 ∧
      25 * (jsSentences text).length < (wsTokens text).length then 15 else 0) +
  (if (jsSentences text).length ≠ 0 ∧
      4 * (findTransitions text).length < (jsSentences text).length then 10 else 0) +
  (if (jsSentences text).length ≠ 0 ∧
      7 * ((analyzeSentenceStructure text).types.simple +
          (analyzeSentenceStructure text).types.compound +
          (analyzeSentenceStructure text).types.complex) <
        10 * (analyzeSentenceStructure text).types.simple then 10 else 0) +
  (if (wsTokens text).length = 0 ∨
      5 * ((wsTokens text).map jsToLower).dedup.length < 2 * (wsTokens text).length
    then 20 else 0)

/-! ## Helper lemmas -/

theorem charLower_ws (c : Char) : jsIsWs (jsCharLower c) = jsIsWs c := by
  unfold jsCharLower
  split
  · rename_i h
    have hv : (c.toNat + 32).isValidChar := Or.inl (by omega)
    have ht : (Char.ofNat (c.toNat + 32)).toNat = c.toNat + 32 := by
      simp only [Char.ofNat]
      rw [dif_pos hv]
      rfl
    rw [Bool.eq_iff_iff]
    simp only [jsIsWs, ht, Bool.or_eq_true, Bool.and_eq_true, decide_eq_true_eq]
    omega
  · split
    · rename_i h h2
      have hv : (c.toNat + 32).isValidChar := Or.inl (by omega)
      have ht : (Char.ofNat (c.toNat + 32)).toNat = c.toNat + 32 := by
        simp only [Char.ofNat]
        rw [dif_pos hv]
        rfl
      rw [Bool.eq_iff_iff]
      simp only [jsIsWs, ht, Bool.or_eq_true, Bool.and_eq_true, decide_eq_true_eq]
      omega
    · rfl

theorem runState_cons (p : Char → Bool) (c : Char) (l : List Char) :
    runState p (c :: l) = runStep p c (runState p l) := rfl

theorem runState_snd_ne_nil (p : Char → Bool) (l : List Char) :
    ∀ r ∈ (runState p l).2, r ≠ [] := by
  induction l with
  | nil => intro r hr; simp [runState] at hr
  | cons c cs ih =>
    intro r hr
    rw [runState_cons] at hr
    unfold runStep at hr
    split at hr
    · simp only at hr
      split at hr
      · exact ih r hr
      · rename_i hne
        rcases List.mem_cons.mp hr with h | h
        · subst h
          simpa [List.isEmpty_iff] using hne
        · exact ih r h
    · exact ih r hr

theorem tokenRuns_ne_nil (p : Char → Bool) (l : List Char) :
    ∀ r ∈ tokenRuns p l, r ≠ [] := by
  intro r hr
  unfold tokenRuns at hr
  split at hr
  · exact runState_snd_ne_nil p l r hr
  · rename_i hne
    rcases List.mem_cons.mp hr with h | h
    · subst h
      simpa [List.isEmpty_iff] using hne
    · exact runState_snd_ne_nil p l r h

theorem runState_map (p : Char → Bool) (f : Char → Char)
    (hp : ∀ c, p (f c) = p c) (l : List Char) :
    runState p (l.map f) =
      ((runState p l).1.map f, (runState p l).2.map (List.map f)) := by
  induction l with
  | nil => rfl
  | cons c cs ih =>
    rw [List.map_cons, runState_cons, ih, runState_cons]
    unfold runStep
    rw [hp c]
    split
    · simp only [Prod.mk.injEq, List.map_eq_nil_iff]
      constructor
      · rfl
      · rcases hst : (runState p cs).1 with _ | ⟨d, ds⟩ <;> simp [hst]
    · simp

theorem tokenRuns_map (p : Char → Bool) (f : Char → Char)
    (hp : ∀ c, p (f c) = p c) (l : List Char) :
    tokenRuns p (l.map f) = (tokenRuns p l).map (List.map f) := by
  unfold tokenRuns
  rw [runState_map p f hp l]
  rcases hst : (runState p l).1 with _ | ⟨d, ds⟩ <;> simp [hst]

theorem mk_eq_empty (l : List Char) : (String.mk l = "") ↔ l = [] := by
  simp [String.ext_iff]

theorem jsLength_mk_pos (l : List Char) (h : l ≠ []) : 0 < jsLength (String.mk l) := by
  rcases l with _ | ⟨c, cs⟩
  · exact absurd rfl h
  · simp only [jsLength, List.map_cons, List.sum_cons]
    split <;> omega

theorem jsLength_empty : jsLength "" = 0 := rfl

theorem wsTokens_eq (s : String) :
    wsTokens s = (tokenRuns jsIsWs s.data).map String.mk := by
  unfold wsTokens jsSplitWs jsFieldSplit
  split
  · rename_i h
    rw [h]
    rfl
  · rename_i h
    rw [List.filter_map]
    have hfil : List.filter ((fun w => decide (0 < jsLength w)) ∘ String.mk)
        ((if headSat jsIsWs s then [([] : List Char)] else []) ++ tokenRuns jsIsWs s.data ++
          (if lastSat jsIsWs s then [([] : List Char)] else [])) = tokenRuns jsIsWs s.data := by
      rw [List.filter_append, List.filter_append]
      have h1 : List.filter ((fun w => decide (0 < jsLength w)) ∘ String.mk)
          (if headSat jsIsWs s then [([] : List Char)] else []) = [] := by
        split <;> simp [jsLength]
      have h2 : List.filter ((fun w => decide (0 < jsLength w)) ∘ String.mk)
          (if lastSat jsIsWs s then [([] : List Char)] else []) = [] := by
        split <;> simp [jsLength]
      have h3 : List.filter ((fun w => decide (0 < jsLength w)) ∘ String.mk)
          (tokenRuns jsIsWs s.data) = tokenRuns jsIsWs s.data :=
        List.filter_eq_self.mpr (fun r hr => by
          simpa using jsLength_mk_pos r (tokenRuns_ne_nil jsIsWs s.data r hr))
      rw [h1, h2, h3, List.append_nil, List.nil_append]
    rw [hfil]

theorem jsFieldSplit_length (p : Char → Bool) (s : String) (h : s.data ≠ []) :
    (jsFieldSplit p s).length =
      (if headSat p s then 1 else 0) + (tokenRuns p s.data).length +
        (if lastSat p s then 1 else 0) := by
  unfold jsFieldSplit
  rw [if_neg h]
  rw [List.length_map, List.length_append, List.length_append]
  congr 2 <;> split <;> rfl

theorem jsTrim_of_nil (s : String) (h : s.data = []) : jsTrim s = "" := by
  unfold jsTrim
  rw [h]
  rfl

theorem data_ne_nil_of_trim (s : String) (h : jsTrim s ≠ "") : s.data ≠ [] :=
  fun hd => h (jsTrim_of_nil s hd)

theorem toLower_data (s : String) : (jsToLower s).data = s.data.map jsCharLower := rfl

theorem headSat_toLower (s : String) :
    headSat jsIsWs (jsToLower s) = headSat jsIsWs s := by
  unfold headSat
  rw [toLower_data]
  rcases s.data with _ | ⟨c, cs⟩
  · rfl
  · simp [charLower_ws]

theorem lastSat_toLower (s : String) :
    lastSat jsIsWs (jsToLower s) = lastSat jsIsWs s := by
  unfold lastSat
  rw [toLower_data, List.getLast?_map]
  rcases s.data.getLast? with _ | c
  · rfl
  · simp [charLower_ws]

theorem wsTokens_toLower_length (s : String) :
    (wsTokens (jsToLower s)).length = (wsTokens s).length := by
  rw [wsTokens_eq, wsTokens_eq, toLower_data,
    tokenRuns_map jsIsWs jsCharLower charLower_ws]
  simp

theorem detWords_length (s : String) (h : s.data ≠ []) :
    (detWords s).length =
      (if headSat jsIsWs s then 1 else 0) + (wsTokens s).length +
        (if lastSat jsIsWs s then 1 else 0) := by
  unfold detWords jsSplitWs
  have hd : (jsToLower s).data ≠ [] := by
    rw [toLower_data]
    simpa using h
  rw [jsFieldSplit_length jsIsWs (jsToLower s) hd, headSat_toLower, lastSat_toLower]
  congr 1
  congr 1
  rw [toLower_data, tokenRuns_map jsIsWs jsCharLower charLower_ws]
  rw [← wsTokens_toLower_length, wsTokens_eq, toLower_data,
    tokenRuns_map jsIsWs jsCharLower charLower_ws]
  simp

theorem ite_singleton_any (c : Bool) (m : Marker) (P : Marker → Bool) :
    (if c then [m] else []).any P = (c && P m) := by
  cases c <;> simp

theorem ite_singleton_eq_nil (c : Bool) (m : Marker) :
    ((if c then [m] else []) = []) ↔ c = false := by
  cases c <;> simp

theorem det_markers_eq (text : String) (m : Metrics) :
    (performDetailedAnalysis text m).markers =
      (if condAvgLen (detWords text).length (jsSentences text).length
        then [avgLenMarker] else []) ++
      (if 0 < (repeatedWordsOf text).length
        then [repeatedMarker (repeatedWordsOf text)] else []) ++
      (if condTrans m.sentenceStats.transitions.length (jsSentences text).length
        then [transMarker] else []) ++
      (if condSimple m.sentenceStats.types then [simpleMarker] else []) ++
      (if condDiversity m.vocabularyStats.uniqueWords m.vocabularyStats.totalWords
        then [diversityMarker m.vocabularyStats.uniqueWords m.vocabularyStats.totalWords]
        else []) := by
  simp only [performDetailedAnalysis]
  split <;> split <;> split <;> split <;> split <;> simp

theorem det_score_eq (text : String) (m : Metrics) :
    (performDetailedAnalysis text m).score =
      (if condAvgLen (detWords text).length (jsSentences text).length then 15 else 0) +
      (if condTrans m.sentenceStats.transitions.length (jsSentences text).length
        then 10 else 0) +
      (if condSimple m.sentenceStats.types then 10 else 0) +
      (if condDiversity m.vocabularyStats.uniqueWords m.vocabularyStats.totalWords
        then 20 else 0) := by
  simp only [performDetailedAnalysis]
  split <;> split <;> split <;> split <;> split <;> simp

theorem analyzeText_score (text : String) (h : jsTrim text ≠ "") :
    (analyzeText text).aiScore = (analyzeAIContent text).1.score := by
  unfold analyzeText
  rw [if_neg h]

theorem analyzeText_markers (text : String) (h : jsTrim text ≠ "") :
    (analyzeText text).markers = (analyzeAIContent text).1.markers := by
  unfold analyzeText
  rw [if_neg h]

theorem analyzeText_metrics (text : String) (h : jsTrim text ≠ "") :
    (analyzeText text).metrics = computedMetrics text := by
  unfold analyzeText
  rw [if_neg h]
  rfl

theorem det_markers_text (text : String) :
    (analyzeAIContent text).1.markers =
      (if condAvgLen (detWords text).length (jsSentences text).length
        then [avgLenMarker] else []) ++
      (if 0 < (repeatedWordsOf text).length
        then [repeatedMarker (repeatedWordsOf text)] else []) ++
      (if condTrans (findTransitions text).length (jsSentences text).length
        then [transMarker] else []) ++
      (if condSimple (analyzeSentenceStructure text).types then [simpleMarker] else []) ++
      (if condDiversity (analyzeVocabularyStats text).uniqueWords
          (analyzeVocabularyStats text).totalWords
        then [diversityMarker (analyzeVocabularyStats text).uniqueWords
          (analyzeVocabularyStats text).totalWords]
        else []) := by
  rw [show (analyzeAIContent text).1 = performDetailedAnalysis text (computedMetrics text)
    from rfl]
  rw [det_markers_eq]
  rfl

theorem det_score_text (text : String) :
    (analyzeAIContent text).1.score =
      (if condAvgLen (detWords text).length (jsSentences text).length then 15 else 0) +
      (if condTrans (findTransitions text).length (jsSentences text).length then 10 else 0) +
      (if condSimple (analyzeSentenceStructure text).types then 10 else 0) +
      (if condDiversity (analyzeVocabularyStats text).uniqueWords
          (analyzeVocabularyStats text).totalWords then 20 else 0) := by
  rw [show (analyzeAIContent text).1 = performDetailedAnalysis text (computedMetrics text)
    from rfl]
  rw [det_score_eq]
  rfl

theorem vocab_unique_le (text : String) :
    (analyzeVocabularyStats text).uniqueWords ≤ (analyzeVocabularyStats text).totalWords := by
  show ((wsTokens text).map jsToLower).dedup.length ≤ (wsTokens text).length
  calc ((wsTokens text).map jsToLower).dedup.length
      ≤ ((wsTokens text).map jsToLower).length := (List.dedup_sublist _).length_le
    _ = (wsTokens text).length := by rw [List.length_map]

theorem typeStep_sum (t : SentenceTypeCounts) (s : String) :
    (typeStep t s).simple + (typeStep t s).compound + (typeStep t s).complex =
      t.simple + t.compound + t.complex + 1 := by
  unfold typeStep
  rcases classifySentence s <;> simp <;> omega

theorem typeFold_sum (l : List String) (t : SentenceTypeCounts) :
    (l.foldl typeStep t).simple + (l.foldl typeStep t).compound +
      (l.foldl typeStep t).complex = t.simple + t.compound + t.complex + l.length := by
  induction l generalizing t with
  | nil => simp
  | cons s ss ih =>
    rw [List.foldl_cons, ih, typeStep_sum, List.length_cons]
    omega

theorem lexicon_nodup : COMMON_TRANSITIONS.Nodup := by decide

/-! ## Claim theorems -/

/-- C1: the claim says that when the trimmed input is non-empty but the
text has zero non-empty sentences, the structure and coherence checks are
skipped entirely (no marker, no score contribution, no NaN/undefined
arithmetic).  The code violates this: on the input `"..."` (trimmed
non-empty, zero sentences) the average-sentence-length guard evaluates
`1 / 0 = Infinity > 25`, so the structure/high marker IS emitted and the
score is 15, not 0. -/
theorem C1_zero_sentences_marker_fires :
    jsTrim "..." ≠ "" ∧ (jsSentences "...").length = 0 ∧
    (analyzeText "...").aiScore = 15 ∧
    (analyzeText "...").markers.map (fun m => (m.type, m.severity)) =
      [("structure", "high")] := by
  decide

/-- C4: an empty or whitespace-only input short-circuits `analyzeText` to
score 0, the fixed advisory message, no markers, and all-zero metrics
(empty lists, zero counts). -/
theorem C4_empty_input (text : String) (h : jsTrim text = "") :
    (analyzeText text).aiScore = 0 ∧
    (analyzeText text).details = emptyInputMessage ∧
    (analyzeText text).markers = [] ∧
    (analyzeText text).metrics = getEmptyMetrics ∧
    getEmptyMetrics =
      { vocabularyStats :=
          { uniqueWords := 0, totalWords := 0, avgWordLength := 0, commonWords := [] }
        sentenceStats :=
          { lengths := [], types := { simple := 0, compound := 0, complex := 0 },
            transitions := [] } } := by
  unfold analyzeText
  rw [if_pos h]
  exact ⟨rfl, rfl, rfl, rfl, rfl⟩

theorem C4_empty_input_witness :
    jsTrim "   " = "" ∧ (analyzeText "   ").aiScore = 0 ∧
    (analyzeText "   ").details = emptyInputMessage ∧
    (analyzeText "   ").markers = [] ∧ (analyzeText "   ").metrics = getEmptyMetrics :=
  ⟨by decide, (C4_empty_input "   " (by decide)).1, (C4_empty_input "   " (by decide)).2.1,
    (C4_empty_input "   " (by decide)).2.2.1, (C4_empty_input "   " (by decide)).2.2.2.1⟩

/-- C5: every sentence is classified into exactly one type by precedence:
complex when it contains a comma AND the substring `qui` or `que`
(case-sensitive, not boundary-aware); otherwise compound when it contains a
comma OR `et` OR `ou`; otherwise simple.  The three spec examples classify
as stated, and the match is boundary-unaware (`ou` inside `Soutenu`). -/
theorem C5_classification :
    (∀ s : String, classifySentence s = SentenceKind.complex ↔
      (strIncludes s "," && (strIncludes s "qui" || strIncludes s "que")) = true) ∧
    (∀ s : String, classifySentence s = SentenceKind.compound ↔
      (strIncludes s "," && (strIncludes s "qui" || strIncludes s "que")) = false ∧
      (strIncludes s "," || strIncludes s "et" || strIncludes s "ou") = true) ∧
    (∀ s : String, classifySentence s = SentenceKind.simple ↔
      (strIncludes s "," && (strIncludes s "qui" || strIncludes s "que")) = false ∧
      (strIncludes s "," || strIncludes s "et" || strIncludes s "ou") = false) ∧
    classifySentence "Le chat, qui dort, est mignon." = SentenceKind.complex ∧
    classifySentence "Le chat et le chien jouent" = SentenceKind.compound ∧
    classifySentence "Le chat dort" = SentenceKind.simple ∧
    classifySentence "Soutenu" = SentenceKind.compound := by
  refine ⟨fun s => ?_, fun s => ?_, fun s => ?_, by decide, by decide, by decide, by decide⟩
  · unfold classifySentence
    cases h1 : (strIncludes s "," && (strIncludes s "qui" || strIncludes s "que")) <;>
      cases h2 : (strIncludes s "," || strIncludes s "et" || strIncludes s "ou") <;>
      simp [h1, h2]
  · unfold classifySentence
    cases h1 : (strIncludes s "," && (strIncludes s "qui" || strIncludes s "que")) <;>
      cases h2 : (strIncludes s "," || strIncludes s "et" || strIncludes s "ou") <;>
      simp [h1, h2]
  · unfold classifySentence
    cases h1 : (strIncludes s "," && (strIncludes s "qui" || strIncludes s "que")) <;>
      cases h2 : (strIncludes s "," || strIncludes s "et" || strIncludes s "ou") <;>
      simp [h1, h2]

/-- C7: for every document, the transition list is the subsequence of the
20-entry lexicon (in declaration order) of exactly those entries that occur
case-insensitively as substrings of the document, each at most once. -/
theorem C7_transition_detection (text : String) :
    (findTransitions text).Sublist COMMON_TRANSITIONS ∧
    (∀ e, e ∈ findTransitions text ↔
      e ∈ COMMON_TRANSITIONS ∧
        strIncludes (jsToLower text) (jsToLower e) = true) ∧
    (findTransitions text).Nodup := by
  refine ⟨List.filter_sublist _, fun e => ?_, List.Nodup.filter _ lexicon_nodup⟩
  unfold findTransitions
  rw [List.mem_filter]

/-- C8: the three sentence types are mutually exclusive and jointly
exhaustive: their counts always sum to the number of non-empty sentences
(which is also the length of the per-sentence lengths list). -/
theorem C8_type_partition (text : String) :
    (analyzeSentenceStructure text).types.simple +
      (analyzeSentenceStructure text).types.compound +
      (analyzeSentenceStructure text).types.complex = (jsSentences text).length ∧
    (analyzeSentenceStructure text).lengths.length = (jsSentences text).length := by
  constructor
  · have h := typeFold_sum (jsSentences text)
      { simple := 0, compound := 0, complex := 0 }
    simpa using h
  · show ((jsSentences text).map _).length = _
    rw [List.length_map]

/-- C9: in the vocabulary statistics returned by `analyzeText`, the number
of distinct case-folded tokens never exceeds the number of tokens. -/
theorem C9_unique_le_total (text : String) :
    (analyzeText text).metrics.vocabularyStats.uniqueWords ≤
      (analyzeText text).metrics.vocabularyStats.totalWords := by
  by_cases h : jsTrim text = ""
  · unfold analyzeText
    rw [if_pos h]
    exact Nat.le_refl 0
  · rw [analyzeText_metrics text h]
    exact vocab_unique_le text

/-- C10: the score returned by `analyzeText` never exceeds 55, the sum of
the four score-carrying deltas 15 + 10 + 10 + 20. -/
theorem C10_score_upper_bound (text : String) : (analyzeText text).aiScore ≤ 55 := by
  by_cases h : jsTrim text = ""
  · unfold analyzeText
    rw [if_pos h]
    norm_num
  · rw [analyzeText_score text h, det_score_text]
    have t1 : (if condAvgLen (detWords text).length (jsSentences text).length
        then (15 : Int) else 0) ≤ 15 := by split <;> omega
    have t2 : (if condTrans (findTransitions text).length (jsSentences text).length
        then (10 : Int) else 0) ≤ 10 := by split <;> omega
    have t3 : (if condSimple (analyzeSentenceStructure text).types
        then (10 : Int) else 0) ≤ 10 := by split <;> omega
    have t4 : (if condDiversity (analyzeVocabularyStats text).uniqueWords
        (analyzeVocabularyStats text).totalWords then (20 : Int) else 0) ≤ 20 := by
      split <;> omega
    omega

/-- C6: counterexample.  The claim says each sentence is
whitespace-stripped and its recorded length is its non-empty token count,
so the second sentence of `"A. B"` would have length 1.  In the code the
segments are never stripped and `" B".split(/\s+/)` is `["", "B"]`, so its
recorded length is 2. -/
theorem C6_counterexample :
    (analyzeSentenceStructure "A. B").lengths = [1, 2] ∧
    specSentenceLengths "A. B" = [1, 1] ∧
    (analyzeSentenceStructure "A. B").lengths ≠ specSentenceLengths "A. B" := by
  decide

/-- C6 (amended): the recorded length of sentence `i` is the number of
fields of the JS whitespace split of the UNSTRIPPED segment: its non-empty
token count plus one for a leading and one for a trailing whitespace
character. -/
theorem C6_amended_lengths (text : String) (i : Nat)
    (h : i < (jsSentences text).length) :
    (analyzeSentenceStructure text).lengths.getD i 0 =
      (if headSat jsIsWs ((jsSentences text).getD i "") then 1 else 0) +
      (wsTokens ((jsSentences text).getD i "")).length +
      (if lastSat jsIsWs ((jsSentences text).getD i "") then 1 else 0) := by
  have hmem : (jsSentences text).getD i "" ∈ jsSentences text := by
    rw [List.getD_eq_getElem _ _ h]
    exact List.getElem_mem h
  have hpred : 0 < jsLength (jsTrim ((jsSentences text).getD i "")) :=
    of_decide_eq_true (List.mem_filter.mp hmem).2
  have htr : jsTrim ((jsSentences text).getD i "") ≠ "" := by
    intro he
    rw [he] at hpred
    exact absurd hpred (by decide)
  have hdata : ((jsSentences text).getD i "").data ≠ [] :=
    data_ne_nil_of_trim _ htr
  have hmap : (analyzeSentenceStructure text).lengths.getD i 0 =
      (jsSplitWs ((jsSentences text).getD i "")).length := by
    show ((jsSentences text).map (fun s => (jsSplitWs s).length)).getD i 0 = _
    rw [List.getD_eq_getElem _ _ (by rw [List.length_map]; exact h), List.getElem_map,
      List.getD_eq_getElem _ _ h]
  rw [hmap]
  show (jsFieldSplit jsIsWs _).length = _
  rw [jsFieldSplit_length jsIsWs _ hdata, wsTokens_eq, List.length_map]

theorem C6_amended_lengths_witness :
    1 < (jsSentences "A. B").length ∧
    (analyzeSentenceStructure "A. B").lengths.getD 1 0 =
      (if headSat jsIsWs ((jsSentences "A. B").getD 1 "") then 1 else 0) +
      (wsTokens ((jsSentences "A. B").getD 1 "")).length +
      (if lastSat jsIsWs ((jsSentences "A. B").getD 1 "") then 1 else 0) :=
  ⟨by decide, C6_amended_lengths "A. B" 1 (by decide)⟩

theorem ite_prop_singleton_any (P : Prop) [Decidable P] (m : Marker) (Q : Marker → Bool) :
    (if P then [m] else []).any Q = (decide P && Q m) := by
  by_cases hp : P <;> simp [hp]

/-- C2: counterexample.  The claim reads the section 4.5 conditions as the
spec defines them — average sentence length `totalWordCount / sentenceCount`
with the structure and coherence checks skipped entirely at zero sentences
(`specScore`).  At the non-empty input `"..."` no spec condition holds, so
the claimed score is 0; the program returns 15, because its average-length
guard divides the raw `split` field count by the zero sentence count and
`Infinity > 25` fires the +15 delta. -/
theorem C2_counterexample :
    jsTrim "..." ≠ "" ∧ specScore "..." = 0 ∧ (analyzeText "...").aiScore = 15 ∧
    (analyzeText "...").aiScore ≠ specScore "..." := by
  decide

/-- C2 (amended): for every non-empty input the returned score is exactly
the sum of the deltas of the scorer conditions AS IMPLEMENTED that hold:
+15 for the average-length guard `condAvgLen`, evaluated on the raw
whitespace-split field count of the lowercased document (at zero sentences
the quotient is Infinity, so it holds whenever that count is positive);
+10 for few transitions; +10 for too many simple sentences; +20 for low
diversity; the repeated-words condition contributes 0 (and, by the
prototype-chain lookup, never even fires for the words `constructor` and
`__proto__`).  Each firing condition also appends its marker with the
stated kind and severity; hence the score is never negative, and with no
markers at all the score is 0. -/
theorem C2_score_is_sum (text : String) (h : jsTrim text ≠ "") :
    ((analyzeText text).aiScore =
      (if condAvgLen (detWords text).length (jsSentences text).length then 15 else 0) +
      (if condTrans (findTransitions text).length (jsSentences text).length then 10 else 0) +
      (if condSimple (analyzeSentenceStructure text).types then 10 else 0) +
      (if condDiversity (analyzeVocabularyStats text).uniqueWords
          (analyzeVocabularyStats text).totalWords then 20 else 0)) ∧
    (condAvgLen (detWords text).length (jsSentences text).length = true →
      (analyzeText text).markers.any (isMarkerKind "structure" "high") = true) ∧
    (0 < (repeatedWordsOf text).length →
      (analyzeText text).markers.any (isMarkerKind "vocabulary" "medium") = true) ∧
    (condTrans (findTransitions text).length (jsSentences text).length = true →
      (analyzeText text).markers.any (isMarkerKind "coherence" "medium") = true) ∧
    (condSimple (analyzeSentenceStructure text).types = true →
      (analyzeText text).markers.any (isMarkerKind "structure" "medium") = true) ∧
    (condDiversity (analyzeVocabularyStats text).uniqueWords
        (analyzeVocabularyStats text).totalWords = true →
      (analyzeText text).markers.any (isMarkerKind "vocabulary" "high") = true) ∧
    0 ≤ (analyzeText text).aiScore ∧
    ((analyzeText text).markers = [] → (analyzeText text).aiScore = 0) := by
  refine ⟨?_, ?_, ?_, ?_, ?_, ?_, ?_, ?_⟩
  · rw [analyzeText_score text h, det_score_text]
  · intro hc
    rw [analyzeText_markers text h, det_markers_text]
    simp [List.any_append, hc, isMarkerKind, avgLenMarker]
  · intro hc
    rw [analyzeText_markers text h, det_markers_text]
    simp [List.any_append, hc, isMarkerKind, repeatedMarker]
  · intro hc
    rw [analyzeText_markers text h, det_markers_text]
    simp [List.any_append, hc, isMarkerKind, transMarker]
  · intro hc
    rw [analyzeText_markers text h, det_markers_text]
    simp [List.any_append, hc, isMarkerKind, simpleMarker]
  · intro hc
    rw [analyzeText_markers text h, det_markers_text]
    simp [List.any_append, hc, isMarkerKind, diversityMarker]
  · rw [analyzeText_score text h, det_score_text]
    have t1 : (if condAvgLen (detWords text).length (jsSentences text).length
        then (15 : Int) else 0) ≥ 0 := by split <;> omega
    have t2 : (if condTrans (findTransitions text).length (jsSentences text).length
        then (10 : Int) else 0) ≥ 0 := by split <;> omega
    have t3 : (if condSimple (analyzeSentenceStructure text).types
        then (10 : Int) else 0) ≥ 0 := by split <;> omega
    have t4 : (if condDiversity (analyzeVocabularyStats text).uniqueWords
        (analyzeVocabularyStats text).totalWords then (20 : Int) else 0) ≥ 0 := by
      split <;> omega
    omega
  · intro hm
    rw [analyzeText_markers text h, det_markers_text] at hm
    rw [analyzeText_score text h, det_score_text]
    simp only [List.append_eq_nil] at hm
    obtain ⟨⟨⟨⟨h1, h2⟩, h3⟩, h4⟩, h5⟩ := hm
    rw [ite_singleton_eq_nil] at h1 h3 h4 h5
    rw [h1, h3, h4, h5]
    simp

theorem C2_score_is_sum_witness :
    jsTrim "Bonjour" ≠ "" ∧ 0 ≤ (analyzeText "Bonjour").aiScore ∧
    ((analyzeText "Bonjour").markers = [] → (analyzeText "Bonjour").aiScore = 0) ∧
    (analyzeText "Bonjour").aiScore =
      (if condAvgLen (detWords "Bonjour").length (jsSentences "Bonjour").length
        then 15 else 0) +
      (if condTrans (findTransitions "Bonjour").length (jsSentences "Bonjour").length
        then 10 else 0) +
      (if condSimple (analyzeSentenceStructure "Bonjour").types then 10 else 0) +
      (if condDiversity (analyzeVocabularyStats "Bonjour").uniqueWords
          (analyzeVocabularyStats "Bonjour").totalWords then 20 else 0) :=
  ⟨by decide, (C2_score_is_sum "Bonjour" (by decide)).2.2.2.2.2.2.1,
    (C2_score_is_sum "Bonjour" (by decide)).2.2.2.2.2.2.2,
    (C2_score_is_sum "Bonjour" (by decide)).1⟩

/-- C3: counterexample.  The claim says the average-sentence-length guard
compares `totalWordCount / sentenceCount` (non-empty tokens) against 25.
On a document with a LEADING space, 25 words and one sentence, that
quotient is 25 (not greater than 25), yet the structure/high marker fires,
because the code divides the raw `split(/\s+/)` field count — 26 here, the
leading space contributing an empty token — by the sentence count. -/
theorem C3_counterexample :
    (analyzeText " a a a a a a a a a a a a a a a a a a a a a a a a a.").metrics.vocabularyStats.totalWords
      = 25 ∧
    (jsSentences " a a a a a a a a a a a a a a a a a a a a a a a a a.").length = 1 ∧
    (detWords " a a a a a a a a a a a a a a a a a a a a a a a a a.").length = 26 ∧
    (analyzeText " a a a a a a a a a a a a a a a a a a a a a a a a a.").markers.any
      (isMarkerKind "structure" "high") = true := by
  decide

/-- C3 (amended): the structure/high marker fires exactly when the guard
`condAvgLen` holds on the raw whitespace-split field count of the lowercased
document; for at least one sentence this means
`25 * sentenceCount < fieldCount`, where the field count equals
`totalWordCount` plus one for a leading and one for a trailing whitespace
character of the document. -/
theorem C3_amended_avg_length (text : String) (h : jsTrim text ≠ "") :
    ((analyzeText text).markers.any (isMarkerKind "structure" "high") =
      condAvgLen (detWords text).length (jsSentences text).length) ∧
    (0 < (jsSentences text).length →
      (condAvgLen (detWords text).length (jsSentences text).length = true ↔
        25 * (jsSentences text).length < (detWords text).length)) ∧
    (detWords text).length =
      (if headSat jsIsWs text then 1 else 0) +
      (analyzeText text).metrics.vocabularyStats.totalWords +
      (if lastSat jsIsWs text then 1 else 0) := by
  refine ⟨?_, ?_, ?_⟩
  · rw [analyzeText_markers text h, det_markers_text]
    simp only [List.any_append, ite_singleton_any, ite_prop_singleton_any]
    have e1 : isMarkerKind "structure" "high" avgLenMarker = true := rfl
    have e2 : isMarkerKind "structure" "high"
        (repeatedMarker (repeatedWordsOf text)) = false := rfl
    have e3 : isMarkerKind "structure" "high" transMarker = false := rfl
    have e4 : isMarkerKind "structure" "high" simpleMarker = false := rfl
    have e5 : isMarkerKind "structure" "high"
        (diversityMarker (analyzeVocabularyStats text).uniqueWords
          (analyzeVocabularyStats text).totalWords) = false := rfl
    rw [e1, e2, e3, e4, e5]
    simp
  · intro hpos
    unfold condAvgLen
    rw [if_neg (Nat.pos_iff_ne_zero.mp hpos)]
    simp
  · rw [analyzeText_metrics text h]
    have hdata : text.data ≠ [] := data_ne_nil_of_trim text h
    rw [detWords_length text hdata]
    rfl

theorem C3_amended_avg_length_witness :
    jsTrim "Salut." ≠ "" ∧
    ((analyzeText "Salut.").markers.any (isMarkerKind "structure" "high") =
      condAvgLen (detWords "Salut.").length (jsSentences "Salut.").length) ∧
    (0 < (jsSentences "Salut.").length →
      (condAvgLen (detWords "Salut.").length (jsSentences "Salut.").length = true ↔
        25 * (jsSentences "Salut.").length < (detWords "Salut.").length)) ∧
    (detWords "Salut.").length =
      (if headSat jsIsWs "Salut." then 1 else 0) +
      (analyzeText "Salut.").metrics.vocabularyStats.totalWords +
      (if lastSat jsIsWs "Salut." then 1 else 0) :=
  ⟨by decide, (C3_amended_avg_length "Salut." (by decide)).1,
    (C3_amended_avg_length "Salut." (by decide)).2.1,
    (C3_amended_avg_length "Salut." (by decide)).2.2⟩
